import Mathlib

/-!
Shallow embedding of the poc4 repository: a family of HTTP/queue front-ends
that forward a chat message to a hosted agent service, wait for the run to
finish, and relay the reply.  The remote SDK is modelled by explicit inputs:
each remote call is an `Except String` result (an exception carries its
message), the run-status poll is a function from poll index to status string
(the source sleeps one second between polls, so poll `i` happens `i` seconds
into the wait), and thread listings are explicit message lists.

Sources embedded below:
  * `src/app/agent_client.py` (`ExistingAgentClient`)
  * `src/app/function_app.py` (queue handlers) with
    `src/app/utils/response_formatter.py`, `src/app/utils/message_processor.py`
  * `src/azure_functions/function_app.py` (`chat_endpoint`, `initialize_client`)
  * `src/test_api_key_ai/function_app_identity_test.py` (`initialize_client`)
  * `src/api/chat/__init__.py` (`main`)
  * `src/api/chat.py` (Flask `chat`)
  * `src/error/app/search_service.py` (`DirectSearchService.search`)
-/

/-- One text segment of a remote thread message.  The Python sources only ever
read `segment.text.value`, so a segment collapses to that one string. -/
structure TextSegment where
  value : String
  deriving DecidableEq, Repr

/-- A thread message as read by `azure_functions/function_app.py` and
`api/chat.py`: a `role` and the `text_messages` segment list. -/
structure ThreadMessage where
  role : String
  textMessages : List TextSegment
  deriving DecidableEq, Repr

/-- A thread message as read by `app/agent_client.py` and
`api/chat/__init__.py`: a `role` and the `content` segment list. -/
structure AgentMessage where
  role : String
  content : List TextSegment
  deriving DecidableEq, Repr

/-- A JSON object whose values are strings: every body built or read by the
handlers under verification only carries string fields. -/
abbrev JObj := List (String × String)

/-- Key lookup in a JSON object (first binding wins, like a Python dict whose
later assignments are modelled by consing in front). -/
def jLookup (o : JObj) (k : String) : Option String :=
  (o.find? (fun p => p.1 == k)).map (fun p => p.2)

/-- Python `k in obj`. -/
def jHasKey (o : JObj) (k : String) : Bool :=
  (o.find? (fun p => p.1 == k)).isSome

/-- An HTTP response: status code plus JSON body.  CORS headers are attached
uniformly in the sources and are not modelled. -/
structure HttpResp where
  status : Nat
  body : JObj
  deriving DecidableEq, Repr

/-- Python truthiness of `os.environ.get(..)` / an optional string parameter:
`None` and the empty string are falsy. -/
def truthyKey : Option String → Bool
  | none => false
  | some s => !(s == "")

/-- Validation shared by `azure_functions/function_app.py:232` and
`api/chat/__init__.py:33`: `if not req_body or "message" not in req_body`.
A missing body, an empty object (falsy dict) or an absent `message` key are
rejected; an empty or whitespace-only `message` value is not. -/
def bodyInvalid : Option JObj → Bool
  | none => true
  | some o => o.isEmpty || !(jHasKey o "message")

/-! ## `src/app/agent_client.py` — `ExistingAgentClient` -/

/-- The ways `_wait_for_response` raises: the terminal-failure branch
(`"El agente falló con estado: {run.status}"`), the fall-through timeout
(`"Timeout esperando respuesta del agente"`, also reached via `break` when a
completed run has no assistant message), and the `IndexError` that
`message.content[0]` raises on an empty content list. -/
inductive WaitError where
  | failedStatus (s : String)
  | timeout
  | indexError
  deriving DecidableEq, Repr

/-- The exception text `str(e)` of each `WaitError`. -/
def errText : WaitError → String
  | .failedStatus s => "El agente falló con estado: " ++ s
  | .timeout => "Timeout esperando respuesta del agente"
  | .indexError => "list index out of range"

/-- `run.status in ["failed", "expired", "cancelled"]`
(`agent_client.py:81`). -/
def isFailure (s : String) : Bool :=
  s == "failed" || s == "expired" || s == "cancelled"

/-- A status on which the poll loop stops: `"completed"` or a failure. -/
def isTerminal (s : String) : Bool :=
  s == "completed" || isFailure s

/-- The completed-run branch of `_wait_for_response` (lines 74–80): scan
`messages.data` (the SDK listing order, newest first) for the first message
with `role == "assistant"` and return `content[0].text.value`; with no
assistant message the loop `break`s into the trailing timeout raise, and an
assistant message with empty `content` raises `IndexError`. -/
def completedExtract (msgs : List AgentMessage) : Except WaitError String :=
  match msgs.find? (fun m => m.role == "assistant") with
  | some m =>
    match m.content with
    | seg :: _ => Except.ok seg.value
    | [] => Except.error WaitError.indexError
  | none => Except.error WaitError.timeout

/-- The polling loop of `_wait_for_response` (lines 70–87): `fuel` is the
number of `wait_time < max_wait` iterations still allowed and `i` the current
poll index (equal to the elapsed seconds, since each iteration ends with
`time.sleep(1); wait_time += 1`).  When the fuel runs out the trailing
`raise Exception("Timeout ...")` fires. -/
def waitAux (status : Nat → String) (msgs : List AgentMessage) :
    Nat → Nat → Except WaitError String
  | 0, _ => Except.error WaitError.timeout
  | fuel + 1, i =>
    if status i == "completed" then completedExtract msgs
    else if isFailure (status i) then Except.error (WaitError.failedStatus (status i))
    else waitAux status msgs fuel (i + 1)

/-- Default `max_wait` of `_wait_for_response` (line 66). -/
def max_wait_default : Nat := 60

/-- `ExistingAgentClient._wait_for_response`, with the remote modelled by the
status observed at each poll and the message listing returned on completion. -/
def wait_for_response (status : Nat → String) (msgs : List AgentMessage)
    (maxWait : Nat) : Except WaitError String :=
  waitAux status msgs maxWait 0

/-- Index of the first terminal status at poll index `≥ i` within `fuel` more
polls.  This is not source code: it is the measure used to characterise the
loop above. -/
def firstHitFrom (status : Nat → String) : Nat → Nat → Option Nat
  | 0, _ => none
  | fuel + 1, i =>
    if isTerminal (status i) then some i else firstHitFrom status fuel (i + 1)

/-- Fresh thread ids handed out by the modelled remote
`create_thread` call: the `n`-th created thread. -/
def freshThreadId (n : Nat) : String := "thread-" ++ toString n

/-- The mutable state of `ExistingAgentClient`: the `self.threads` cache
(session key ↦ thread id; Python dict assignment is modelled by consing the
new binding in front, with lookups taking the first hit), a counter feeding
fresh remote thread ids, and the running count of remote `create_thread`
calls. -/
structure ClientState where
  threads : List (String × String)
  nextIdx : Nat
  createCalls : Nat
  deriving DecidableEq, Repr

/-- Lookup in the `self.threads` cache. -/
def cacheFind (st : ClientState) (k : String) : Option String :=
  ((st.threads.find? (fun p => p.1 == k)).map (fun p => p.2))

/-- Lines 26–32 of `chat_with_agent`:
`if thread_id and thread_id in self.threads:` reuse the cached thread,
`else:` create one remotely and, `if thread_id:` (truthy), cache it.
Returns the thread id used together with the updated state. -/
def getOrCreateThread (tid : Option String) (st : ClientState) :
    String × ClientState :=
  if truthyKey tid && (cacheFind st (tid.getD "")).isSome then
    ((cacheFind st (tid.getD "")).getD "", st)
  else
    let t := freshThreadId st.nextIdx
    let threads :=
      if truthyKey tid then (tid.getD "", t) :: st.threads else st.threads
    (t, ⟨threads, st.nextIdx + 1, st.createCalls + 1⟩)

/-- `AgentResponse` of `app/models/response_models.py` (the `run_id`,
`citations` and `metadata` fields are never read by the handlers under
verification and are omitted). -/
structure AgentResponse where
  content : String
  threadId : Option String
  success : Bool
  deriving DecidableEq, Repr

/-- `ExistingAgentClient.chat_with_agent`: resolve the thread, send the
message, run the agent and wait.  Message/run creation accept in this model
(their rejections travel through the same catch-all as wait errors); the
`except` block turns any raise into
`AgentResponse(content=f"Error: {str(e)}", thread_id=thread_id, success=False)`
where `thread_id` is the *parameter*, not the thread just created. -/
def chat_with_agent (_query : String) (tid : Option String)
    (status : Nat → String) (msgs : List AgentMessage) (st : ClientState) :
    AgentResponse × ClientState :=
  let r := getOrCreateThread tid st
  match wait_for_response status msgs max_wait_default with
  | Except.ok text => (⟨text, some r.1, true⟩, r.2)
  | Except.error e => (⟨"Error: " ++ errText e, tid, false⟩, r.2)

/-! ## `src/azure_functions/function_app.py` — `chat_endpoint` -/

/-- The fixed fallback reply of `chat_endpoint` (line 290). -/
def fallbackResponse : String := "Lo siento, no pude generar una respuesta."

/-- The condition of the extraction loop (line 292):
`if msg.role != "user" and msg.text_messages`. -/
def msgQualifies (m : ThreadMessage) : Bool :=
  m.role != "user" && !m.textMessages.isEmpty

/-- `msg.text_messages[-1].text.value`; only ever applied to a non-empty
segment list. -/
def lastTextValue (segs : List TextSegment) : String :=
  match segs.getLast? with
  | some seg => seg.value
  | none => ""

/-- Lines 290–294: iterate `reversed(list(messages))` (the listing was
requested in ascending order) and stop at the first qualifying message. -/
def extractBot (msgs : List ThreadMessage) : String :=
  match msgs.reverse.find? msgQualifies with
  | some m => lastTextValue m.textMessages
  | none => fallbackResponse

/-- What the spec's extraction sentence names directly: the last (most
recent, in ascending creation order) non-user entry of the thread that has at
least one text segment.  Stated from the spec's words, to be compared with
`extractBot`. -/
def lastNonUserWithText (msgs : List ThreadMessage) : Option ThreadMessage :=
  (msgs.filter msgQualifies).getLast?

/-- The run object returned by `runs.create_and_process`: terminal status and
`str(run.last_error)` when `run.last_error` is set. -/
structure RunInfo where
  status : String
  lastError : Option String
  deriving DecidableEq, Repr

/-- The remote calls issued inside `chat_endpoint`'s `try` block, each an
`Except` whose error is the exception text. -/
structure AgentsApi where
  getAgent : Except String String
  createThread : Except String String
  createMessage : Except String Unit
  createAndProcess : Except String RunInfo
  listMessages : Except String (List ThreadMessage)
  deriving Repr

/-- Line 269: `str(run.last_error) if run.last_error else "Error desconocido"`. -/
def failedDetails (r : RunInfo) : String :=
  r.lastError.getD "Error desconocido"

/-- The `try` block of `chat_endpoint` (lines 229–309): parse the body,
validate, issue the four remote calls, special-case `run.status == "failed"`,
else list messages and answer 200.  An `Except.error` escaping here is what
the surrounding `except Exception` catches. -/
def chatTryBlock (getJson : Except String (Option JObj)) (ops : AgentsApi) :
    Except String HttpResp :=
  match getJson with
  | Except.error e => Except.error e
  | Except.ok body =>
    if bodyInvalid body then
      Except.ok ⟨400, [("error", "El mensaje es requerido")]⟩
    else
      let sessionId := (jLookup (body.getD []) "session_id").getD "default"
      match ops.getAgent with
      | Except.error e => Except.error e
      | Except.ok _ =>
        match ops.createThread with
        | Except.error e => Except.error e
        | Except.ok threadId =>
          match ops.createMessage with
          | Except.error e => Except.error e
          | Except.ok _ =>
            match ops.createAndProcess with
            | Except.error e => Except.error e
            | Except.ok run =>
              if run.status == "failed" then
                Except.ok ⟨500, [("error", "El agente no pudo procesar la consulta"),
                                 ("details", failedDetails run)]⟩
              else
                match ops.listMessages with
                | Except.error e => Except.error e
                | Except.ok msgs =>
                  Except.ok ⟨200, [("response", extractBot msgs),
                                   ("thread_id", threadId),
                                   ("status", "success"),
                                   ("session_id", sessionId)]⟩

/-- `chat_endpoint` (lines 200–323): the client-availability guard (503 when
`project` is unset and re-running the initializer fails; its body includes the
recorded `initialization_error`), then the `try` block with its
`except Exception` catch-all mapping any raise to a 500 error body. -/
def chat_endpoint (clientReady : Bool) (reinitOk : Bool) (initError : String)
    (getJson : Except String (Option JObj)) (ops : AgentsApi) : HttpResp :=
  if !clientReady && !reinitOk then
    ⟨503, [("error", "Servicio no disponible"),
           ("details", "No se puede conectar con Azure AI"),
           ("initialization_error", initError),
           ("suggestion", "Verifica la configuración de AZURE_AI_API_KEY")]⟩
  else
    match chatTryBlock getJson ops with
    | Except.ok r => r
    | Except.error e =>
      ⟨500, [("error", "Error interno del servidor"),
             ("details", e),
             ("type", "Exception")]⟩

/-! ## `src/api/chat/__init__.py` — `main` (POST branch) -/

/-- ASCII whitespace stripped by Python `str.strip()`. -/
def isPySpace (c : Char) : Bool :=
  c == Char.ofNat 32 || c == Char.ofNat 9 || c == Char.ofNat 10 ||
  c == Char.ofNat 13 || c == Char.ofNat 11 || c == Char.ofNat 12

/-- Python `agent_id.strip('"').strip()` (line 51): drop the double quotes at
both ends, then strip whitespace at both ends. -/
def stripQuotesTrim (s : String) : String :=
  String.mk
    ((((((s.data.dropWhile (fun c => c == Char.ofNat 34)).reverse.dropWhile
        (fun c => c == Char.ofNat 34)).reverse).dropWhile
          isPySpace).reverse.dropWhile isPySpace).reverse)

/-- The probe chain of lines 334–350 applied to one message: with a non-empty
`content` list the handler reads `content[0].text.value`, otherwise the
remaining fallbacks find nothing and the response stays empty. -/
def probeText (m : AgentMessage) : String :=
  match m.content with
  | seg :: _ => seg.value
  | [] => ""

/-- The extraction loop of lines 330–356: scan the listing for the first
`role == "assistant"` entry whose probed text is non-empty (an empty probe
does not `break`); fall back to the fixed apology when none is found. -/
def extractAssistant : List AgentMessage → String
  | [] => "Lo siento, no pude generar una respuesta. Por favor, intenta de nuevo."
  | m :: ms =>
    if m.role == "assistant" && !(probeText m == "") then probeText m
    else extractAssistant ms

/-- The environment variables read by `main` (lines 44–47); the subscription
and resource-group plumbing only feeds client construction, which is
abstracted into `MainOps.authOk`. -/
structure MainEnv where
  endpoint : Option String
  agentId : Option String
  apiKey : Option String
  deriving Repr

/-- The effects of `main` after validation: whether any credential path
produced a client (API key, else managed identity / default credential — the
detailed ladder is the subject of `init_client_test` below), then the four
remote calls. -/
structure MainOps where
  authOk : Bool
  createThread : Except String String
  createMessage : Except String Unit
  runOutcome : Except String RunInfo
  listMessages : Except String (List AgentMessage)
  deriving Repr

/-- `main`'s POST branch (lines 30–400), returning the response together with
the number of remote thread/message/run/listing calls attempted.  Validation
(lines 33–38) precedes every remote call; the environment check (lines 54–68)
reports missing variables; each remote step failure maps to its 500 body (the
`AttributeError` re-probing ladder around thread creation is collapsed into
the single failure outcome of the call). -/
def api_chat_main (body : Option JObj) (env : MainEnv) (ops : MainOps) :
    HttpResp × Nat :=
  if bodyInvalid body then
    (⟨400, [("error", "Message is required")]⟩, 0)
  else
    let agentId := env.agentId.map stripQuotesTrim
    if !(truthyKey env.endpoint && truthyKey agentId) then
      (⟨500, [("error", "Missing environment variables")]⟩, 0)
    else if !ops.authOk then
      (⟨500, [("error", "Authentication failed")]⟩, 0)
    else
      match ops.createThread with
      | Except.error e =>
        (⟨500, [("error", "Azure AI processing failed"), ("details", e)]⟩, 1)
      | Except.ok _ =>
        match ops.createMessage with
        | Except.error e =>
          (⟨500, [("error", "Failed to create message"), ("details", e)]⟩, 2)
        | Except.ok _ =>
          match ops.runOutcome with
          | Except.error e =>
            (⟨500, [("error", "Failed to run agent"), ("details", e)]⟩, 3)
          | Except.ok run =>
            if run.status == "failed" then
              (⟨500, [("error", "Agent run failed"),
                      ("details", run.lastError.getD "Unknown error")]⟩, 3)
            else
              match ops.listMessages with
              | Except.error e =>
                (⟨500, [("error", "Failed to retrieve response"),
                        ("details", e)]⟩, 4)
              | Except.ok msgs =>
                (⟨200, [("response", extractAssistant msgs)]⟩, 4)

/-! ## `src/api/chat.py` — Flask `chat` -/

/-- The `try` body of the Flask `chat` handler (lines 14–40):
`data.get("message", "")` with no validation, the four remote calls, the
`"failed"` check answering a bare `{"error": "Agent failed"}`, and
`messages[0].text_messages[-1].text.value if messages else ""` as the reply.
A `None` body makes `data.get` raise `AttributeError`; an empty
`text_messages` list makes the `[-1]` index raise. -/
def flask_chat_try (body : Option JObj) (ops : AgentsApi) :
    Except String HttpResp :=
  match body with
  | none => Except.error "AttributeError: NoneType object has no attribute get"
  | some _ =>
    match ops.getAgent with
    | Except.error e => Except.error e
    | Except.ok _ =>
      match ops.createThread with
      | Except.error e => Except.error e
      | Except.ok _ =>
        match ops.createMessage with
        | Except.error e => Except.error e
        | Except.ok _ =>
          match ops.createAndProcess with
          | Except.error e => Except.error e
          | Except.ok run =>
            if run.status == "failed" then
              Except.ok ⟨500, [("error", "Agent failed")]⟩
            else
              match ops.listMessages with
              | Except.error e => Except.error e
              | Except.ok msgs =>
                match msgs with
                | [] => Except.ok ⟨200, [("response", "")]⟩
                | m :: _ =>
                  match m.textMessages.getLast? with
                  | some seg => Except.ok ⟨200, [("response", seg.value)]⟩
                  | none => Except.error "list index out of range"

/-- The Flask `chat` handler with its catch-all
`except Exception: return jsonify({"error": str(e)}), 500`. -/
def flask_chat (body : Option JObj) (ops : AgentsApi) : HttpResp :=
  match flask_chat_try body ops with
  | Except.ok r => r
  | Except.error e => ⟨500, [("error", e)]⟩

/-! ## `src/app/function_app.py` — queue handlers, with
`utils/response_formatter.py` and `utils/message_processor.py` -/

/-- `QueueMessage` of `app/models/message_models.py` (the unread `user_id`,
`session_id` and `metadata` fields are omitted). -/
structure QueueMsgData where
  query : String
  correlationId : String
  threadId : Option String
  deriving DecidableEq, Repr

/-- The output envelope written to the result queue.  `format_agent_response`
emits value/correlation/success/thread fields; `format_error_response` emits
value/correlation/success/error fields; the union is modelled with `Option`
for the fields each shape lacks. -/
structure OutEnvelope where
  value : String
  correlationId : String
  success : Bool
  threadId : Option String
  errorField : Option String
  deriving DecidableEq, Repr

/-- `ResponseFormatter.format_agent_response`. -/
def format_agent_response (r : AgentResponse) (cid : String) : OutEnvelope :=
  ⟨r.content, cid, r.success, r.threadId, none⟩

/-- `ResponseFormatter.format_error_response`. -/
def format_error_response (err : String) (cid : String) : OutEnvelope :=
  ⟨"Lo siento, ocurrió un error procesando tu consulta: " ++ err,
   cid, false, none, some err⟩

/-- `process_agent_conversation_queue` (lines 205–235): parse the queue
message (`parse_queue_message` raises on malformed payloads), chat, format;
the `except` block formats an error envelope (with correlation id `"unknown"`
when parsing is what failed) and still sets the output.  The returned value is
the message set on `outputQueueItem`; `none` would mean no output was set. -/
def process_agent_conversation_queue (parse : Except String QueueMsgData)
    (status : Nat → String) (msgs : List AgentMessage) (st : ClientState) :
    Option OutEnvelope :=
  match parse with
  | Except.ok md =>
    let r := chat_with_agent md.query md.threadId status msgs st
    some (format_agent_response r.1 md.correlationId)
  | Except.error e => some (format_error_response e "unknown")

/-! ## `src/error/app/search_service.py` and the search formatter -/

/-- A raw document returned by the search index; `result.get(key, default)`
is modelled with `Option` fields.  Scores are floats in the source; no
arithmetic is ever performed on them, so they are carried as integers here. -/
structure RawDoc where
  content : Option String
  title : Option String
  score : Option Int
  source : Option String
  highlights : Option (List (String × List String))
  deriving DecidableEq, Repr

/-- `SearchResult` of `app/models/response_models.py`. -/
structure SearchResult where
  content : String
  title : String
  score : Int
  source : String
  highlights : List (String × List String)
  deriving DecidableEq, Repr

/-- The per-document construction of `DirectSearchService.search`
(lines 33–40). -/
def toSearchResult (d : RawDoc) : SearchResult :=
  ⟨d.content.getD "", d.title.getD "", d.score.getD 0, d.source.getD "",
   d.highlights.getD []⟩

/-- `DirectSearchService.search` (lines 19–47): the remote call either yields
documents or raises; the `except` block logs and returns the empty list. -/
def direct_search (clientResult : Except String (List RawDoc)) :
    List SearchResult :=
  match clientResult with
  | Except.ok docs => docs.map toSearchResult
  | Except.error _ => []

/-- The fixed no-results reply of `format_search_response` (line 27). -/
def noResultsText : String :=
  "No se encontraron resultados relevantes para tu consulta."

/-- The per-result summary dict of `format_search_response` (lines 36–43),
with `content[:200] + '...'` applied only past 200 characters. -/
structure ResultSummary where
  title : String
  content : String
  score : Int
  source : String
  deriving DecidableEq, Repr

/-- `result.content[:200] + '...' if len(result.content) > 200 else
result.content`. -/
def truncate200 (s : String) : String :=
  if s.length > 200 then (s.take 200) ++ "..." else s

/-- Rendering of `f"{result.score:.2f}"` for integer-modelled scores. -/
def scoreText (n : Int) : String := toString n ++ ".00"

/-- One block of `_build_search_response_text` (lines 62–65). -/
def searchBlock (i : Nat) (r : SearchResult) : String :=
  "**" ++ toString i ++ ". " ++ r.title ++ "**\n" ++
    (r.content.take 300) ++ "...\n" ++
    "*(Relevancia: " ++ scoreText r.score ++ ")*\n\n"

/-- `enumerate(results[:3], 1)` over the blocks. -/
def buildBlocks : Nat → List SearchResult → String
  | _, [] => ""
  | i, r :: rs => searchBlock i r ++ buildBlocks (i + 1) rs

/-- `ResponseFormatter._build_search_response_text`. -/
def build_search_response_text (rs : List SearchResult) : String :=
  "Basado en la información encontrada en tus documentos:\n\n" ++
    buildBlocks 1 (rs.take 3) ++
    (if rs.length > 3 then
      "*Se encontraron " ++ toString rs.length ++ " resultados adicionales.*"
    else "")

/-- The search output envelope (`Value`/`CorrelationId`/`Success`/
`ResultCount`/`Results`). -/
structure SearchEnvelope where
  value : String
  correlationId : String
  success : Bool
  resultCount : Nat
  results : List ResultSummary
  deriving DecidableEq, Repr

/-- `ResponseFormatter.format_search_response` (lines 21–44): empty results
become the fixed no-results text, and `Success` is unconditionally `True`. -/
def format_search_response (rs : List SearchResult) (cid : String) :
    SearchEnvelope :=
  ⟨if rs.isEmpty then noResultsText else build_search_response_text rs,
   cid, true, rs.length,
   (rs.take 3).map (fun r => ⟨r.title, truncate200 r.content, r.score, r.source⟩)⟩

/-- `direct_search_query_queue` (lines 240–262): parse, search, format, set
the output — but its `except` block only logs, setting nothing.  The returned
value is the message set on `outputQueueItem`. -/
def direct_search_query_queue (parse : Except String QueueMsgData)
    (clientResult : Except String (List RawDoc)) : Option SearchEnvelope :=
  match parse with
  | Except.ok md =>
    some (format_search_response (direct_search clientResult) md.correlationId)
  | Except.error _ => none

/-! ## Credential initialisation —
`azure_functions/function_app.py:initialize_client` and
`test_api_key_ai/function_app_identity_test.py:initialize_client` -/

/-- The configuration and remote behaviour the two initialisers branch on:
the `AZURE_AI_API_KEY` value, the `MSI_ENDPOINT` / `IDENTITY_ENDPOINT`
presence flags, and whether each credential's client construction plus
`get_agent` verification would succeed. -/
structure AuthEnv where
  apiKey : Option String
  msiEndpoint : Bool
  identityEndpoint : Bool
  keyAuthOk : Bool
  msiAuthOk : Bool
  defaultAuthOk : Bool
  deriving DecidableEq, Repr

/-- Result of an initialiser: the authentication method that won, or the
recorded `initialization_error`. -/
inductive InitOutcome where
  | okMethod (method : String)
  | failed (err : String)
  deriving DecidableEq, Repr

/-- `initialize_client` of `azure_functions/function_app.py` (lines 26–90):
with a truthy API key, build the key client and verify; a verification
failure records the error and returns `False` — it does *not* fall through to
managed identity.  Without a key, managed identity is tried only when
`MSI_ENDPOINT` is set (its failures propagate to the outer `except`), and
there is no ambient-default fallback of its own. -/
def init_client_af (e : AuthEnv) : InitOutcome :=
  if truthyKey e.apiKey then
    if e.keyAuthOk then InitOutcome.okMethod "api_key"
    else InitOutcome.failed "Cliente creado pero no puede acceder al agente"
  else
    if e.msiEndpoint then
      if e.msiAuthOk then InitOutcome.okMethod "managed_identity"
      else InitOutcome.failed "error verificando Managed Identity"
    else InitOutcome.failed "Ni API Key ni Managed Identity disponibles"

/-- `initialize_client` of `test_api_key_ai/function_app_identity_test.py`
(lines 27–112): try the API key inside its own `try/except` (a failure only
warns), then managed identity when either identity endpoint is present (its
failure is caught and execution continues), then `DefaultAzureCredential` as
the last resort. -/
def init_client_test (e : AuthEnv) : InitOutcome :=
  if truthyKey e.apiKey && e.keyAuthOk then
    InitOutcome.okMethod "api_key"
  else if (e.msiEndpoint || e.identityEndpoint) && e.msiAuthOk then
    InitOutcome.okMethod "managed_identity"
  else if e.defaultAuthOk then
    InitOutcome.okMethod "default_credential"
  else
    InitOutcome.failed "Ningún método de autenticación funcionó"

/-! ## Generic lemmas about the embedded operations -/

/-- The first satisfying element is the head of the filtered list. -/
theorem find?_eq_filter_head? (p : α → Bool) :
    ∀ l : List α, l.find? p = (l.filter p).head? := by
  intro l
  induction l with
  | nil => rfl
  | cons a t ih =>
    cases h : p a with
    | true =>
      rw [List.find?_cons_of_pos _ h, List.filter_cons_of_pos h]
      rfl
    | false =>
      have h' : ¬p a = true := by simp [h]
      rw [List.find?_cons_of_neg _ h', List.filter_cons_of_neg h']
      exact ih

/-- The poll loop, rephrased through the index of the first terminal status:
no terminal status within the fuel means the trailing timeout, and otherwise
the loop stops at the first terminal status, extracting on `"completed"` and
raising on a failure status. -/
theorem waitAux_eq_firstHit (status : Nat → String) (msgs : List AgentMessage) :
    ∀ fuel i, waitAux status msgs fuel i =
      (match firstHitFrom status fuel i with
       | none => Except.error WaitError.timeout
       | some k =>
         if status k == "completed" then completedExtract msgs
         else Except.error (WaitError.failedStatus (status k))) := by
  intro fuel
  induction fuel with
  | zero => intro i; rfl
  | succ n ih =>
    intro i
    rw [show waitAux status msgs (n + 1) i =
        (if status i == "completed" then completedExtract msgs
         else if isFailure (status i) then
           Except.error (WaitError.failedStatus (status i))
         else waitAux status msgs n (i + 1)) from rfl]
    rw [show firstHitFrom status (n + 1) i =
        (if isTerminal (status i) then some i
         else firstHitFrom status n (i + 1)) from rfl]
    cases hc : status i == "completed" with
    | true =>
      have ht : isTerminal (status i) = true := by
        simp [isTerminal, hc]
      simp [hc, ht]
    | false =>
      cases hf : isFailure (status i) with
      | true =>
        have ht : isTerminal (status i) = true := by
          simp [isTerminal, hf]
        simp [hc, hf, ht]
      | false =>
        have ht : isTerminal (status i) = false := by
          simp [isTerminal, hc, hf]
        simp [hc, hf, ht, ih]

/-- Absence of a terminal status characterises a `none` first hit. -/
theorem firstHitFrom_eq_none_iff (status : Nat → String) :
    ∀ fuel i, firstHitFrom status fuel i = none ↔
      ∀ j, j < fuel → isTerminal (status (i + j)) = false := by
  intro fuel
  induction fuel with
  | zero => intro i; simp [firstHitFrom]
  | succ n ih =>
    intro i
    cases ht : isTerminal (status i) with
    | true =>
      simp only [firstHitFrom, ht, if_true]
      constructor
      · intro h; exact absurd h (by simp)
      · intro h
        have h0 := h 0 (Nat.succ_pos n)
        rw [Nat.add_zero] at h0
        rw [ht] at h0
        exact absurd h0 (by simp)
    | false =>
      simp only [firstHitFrom, ht, if_false, Bool.false_eq_true]
      rw [ih (i + 1)]
      constructor
      · intro h j hj
        cases j with
        | zero => rw [Nat.add_zero]; exact ht
        | succ m =>
          have hm := h m (Nat.lt_of_succ_lt_succ hj)
          rw [show i + (m + 1) = i + 1 + m from by omega]
          exact hm
      · intro h j hj
        have hm := h (j + 1) (Nat.succ_lt_succ hj)
        rw [show i + 1 + j = i + (j + 1) from by omega]
        exact hm

/-- What a `some` first hit guarantees: it lies in the polled window, is
terminal, and nothing before it (inside the window) is terminal. -/
theorem firstHitFrom_eq_some (status : Nat → String) :
    ∀ fuel i k, firstHitFrom status fuel i = some k →
      i ≤ k ∧ k < i + fuel ∧ isTerminal (status k) = true ∧
        ∀ j, i ≤ j → j < k → isTerminal (status j) = false := by
  intro fuel
  induction fuel with
  | zero => intro i k h; exact absurd h (by simp [firstHitFrom])
  | succ n ih =>
    intro i k h
    cases ht : isTerminal (status i) with
    | true =>
      rw [firstHitFrom, ht, if_pos rfl] at h
      cases h
      refine ⟨Nat.le_refl i, ?_, ht, ?_⟩
      · exact Nat.lt_of_lt_of_le (Nat.lt_succ_self i) (by omega)
      · intro j hij hji; exact absurd (Nat.lt_of_le_of_lt hij hji) (Nat.lt_irrefl i)
    | false =>
      rw [firstHitFrom, ht] at h
      simp only [Bool.false_eq_true, if_false] at h
      obtain ⟨h1, h2, h3, h4⟩ := ih (i + 1) k h
      refine ⟨Nat.le_of_succ_le h1, by omega, h3, ?_⟩
      intro j hij hjk
      cases Nat.eq_or_lt_of_le hij with
      | inl he => rw [← he]; exact ht
      | inr hlt => exact h4 j hlt hjk

/-- Converse: the least terminal index inside the window is the first hit. -/
theorem firstHitFrom_of_least (status : Nat → String) :
    ∀ fuel i k, i ≤ k → k < i + fuel → isTerminal (status k) = true →
      (∀ j, i ≤ j → j < k → isTerminal (status j) = false) →
      firstHitFrom status fuel i = some k := by
  intro fuel
  induction fuel with
  | zero => intro i k h1 h2; omega
  | succ n ih =>
    intro i k h1 h2 h3 h4
    cases Nat.eq_or_lt_of_le h1 with
    | inl he =>
      subst he
      rw [firstHitFrom, h3, if_pos rfl]
    | inr hlt =>
      have ht : isTerminal (status i) = false := h4 i (Nat.le_refl i) hlt
      rw [firstHitFrom, ht]
      simp only [Bool.false_eq_true, if_false]
      exact ih (i + 1) k hlt (by omega) h3 (fun j hj hjk => h4 j (by omega) hjk)

/-- The completed branch times out exactly when the listing has no assistant
message. -/
theorem completedExtract_eq_timeout_iff (msgs : List AgentMessage) :
    completedExtract msgs = Except.error WaitError.timeout ↔
      msgs.find? (fun m => m.role == "assistant") = none := by
  unfold completedExtract
  cases h : msgs.find? (fun m => m.role == "assistant") with
  | none => simp
  | some m => cases hc : m.content <;> simp [hc]

/-- A failure status is never the string `"completed"`. -/
theorem isFailure_ne_completed (s : String) (h : isFailure s = true) :
    (s == "completed") = false := by
  unfold isFailure at h
  rcases Bool.or_eq_true_iff.mp h with h' | h'
  · rcases Bool.or_eq_true_iff.mp h' with h'' | h''
    · have he := eq_of_beq h''; subst he; rfl
    · have he := eq_of_beq h''; subst he; rfl
  · have he := eq_of_beq h'; subst he; rfl

/-- When no poll in the window sees a terminal status, the loop times out. -/
theorem waitAux_of_noneHit (status : Nat → String) (msgs : List AgentMessage)
    (fuel i : Nat) (h : firstHitFrom status fuel i = none) :
    waitAux status msgs fuel i = Except.error WaitError.timeout := by
  rw [waitAux_eq_firstHit, h]

/-- When the first terminal status is at poll `k`, the loop stops there. -/
theorem waitAux_of_someHit (status : Nat → String) (msgs : List AgentMessage)
    (fuel i k : Nat) (h : firstHitFrom status fuel i = some k) :
    waitAux status msgs fuel i =
      (if status k == "completed" then completedExtract msgs
       else Except.error (WaitError.failedStatus (status k))) := by
  rw [waitAux_eq_firstHit, h]

/-- Two least terminal indices coincide. -/
theorem least_terminal_unique (status : Nat → String) (i k : Nat)
    (htermk : isTerminal (status k) = true)
    (hmink : ∀ j, j < k → isTerminal (status j) = false)
    (htermi : isTerminal (status i) = true)
    (hmini : ∀ j, j < i → isTerminal (status j) = false) : i = k := by
  rcases Nat.lt_trichotomy i k with hlt | heq | hgt
  · rw [hmink i hlt] at htermi; exact absurd htermi (by simp)
  · exact heq
  · rw [hmini k hgt] at htermk; exact absurd htermk (by simp)

/-- Claim C2 (amended): the loop always terminates after at most `maxWait`
polls, taken at consecutive one-second marks, and the timeout error is
produced if and only if either no poll within the budget observes a terminal
status, or the first terminal status observed is `"completed"` but the thread
listing holds no assistant message (that path falls through to the very same
timeout raise). -/
theorem c2_timeout_characterisation (status : Nat → String)
    (msgs : List AgentMessage) (maxWait : Nat) :
    wait_for_response status msgs maxWait = Except.error WaitError.timeout ↔
      ((∀ i, i < maxWait → isTerminal (status i) = false) ∨
       (∃ i, i < maxWait ∧ (∀ j, j < i → isTerminal (status j) = false) ∧
         status i = "completed" ∧
         msgs.find? (fun m => m.role == "assistant") = none)) := by
  unfold wait_for_response
  cases h : firstHitFrom status maxWait 0 with
  | none =>
    rw [waitAux_of_noneHit status msgs maxWait 0 h]
    have hn := (firstHitFrom_eq_none_iff status maxWait 0).mp h
    constructor
    · intro _
      exact Or.inl (fun i hi => by
        have hni := hn i hi
        rwa [Nat.zero_add] at hni)
    · intro _; rfl
  | some k =>
    rw [waitAux_of_someHit status msgs maxWait 0 k h]
    obtain ⟨-, hk, hterm, hmin⟩ := firstHitFrom_eq_some status maxWait 0 k h
    rw [Nat.zero_add] at hk
    have hmin' : ∀ j, j < k → isTerminal (status j) = false :=
      fun j hj => hmin j (Nat.zero_le j) hj
    cases hc : status k == "completed" with
    | true =>
      have hceq : status k = "completed" := eq_of_beq hc
      rw [if_pos rfl, completedExtract_eq_timeout_iff]
      constructor
      · intro hfind
        exact Or.inr ⟨k, hk, hmin', hceq, hfind⟩
      · rintro (hall | ⟨i, _, hmini, hci, hfind⟩)
        · rw [hall k hk] at hterm; exact absurd hterm (by simp)
        · have htermi : isTerminal (status i) = true := by
            rw [hci]; rfl
          have hik : i = k := least_terminal_unique status i k hterm hmin' htermi hmini
          subst hik
          exact hfind
    | false =>
      simp only [Bool.false_eq_true, if_false]
      constructor
      · intro hres; exact absurd hres (by simp)
      · rintro (hall | ⟨i, _, hmini, hci, hfind⟩)
        · rw [hall k hk] at hterm; exact absurd hterm (by simp)
        · have htermi : isTerminal (status i) = true := by
            rw [hci]; rfl
          have hik : i = k := least_terminal_unique status i k hterm hmin' htermi hmini
          subst hik
          rw [hci] at hc
          exact absurd hc (by simp)

/-- Witness for C2: a remote that never leaves `"in_progress"` yields the
timeout error at the default 60-second budget. -/
theorem c2_timeout_characterisation_witness :
    wait_for_response (fun _ => "in_progress") [] max_wait_default
      = Except.error WaitError.timeout :=
  (c2_timeout_characterisation (fun _ => "in_progress") [] max_wait_default).mpr
    (Or.inl (fun _ _ => rfl))

/-- Counterexample for C2 as frozen: a run that is `"completed"` — a terminal
status — at the very first poll, over a thread listing with no assistant
message, still produces the timeout error, so `RunTimedOut` is *not*
equivalent to the budget being exhausted without a terminal status. -/
theorem c2_counterexample :
    wait_for_response (fun _ => "completed") [] max_wait_default
        = Except.error WaitError.timeout ∧
      isTerminal "completed" = true :=
  ⟨rfl, rfl⟩

/-- A hit of the extraction scan is a qualifying member of the listing. -/
theorem findBot_mem (msgs : List ThreadMessage) (m : ThreadMessage)
    (h : msgs.reverse.find? msgQualifies = some m) :
    m ∈ msgs ∧ msgQualifies m = true :=
  ⟨List.mem_reverse.mp (List.mem_of_find?_eq_some h), List.find?_some h⟩

/-- With no qualifying message, `extractBot` is the fixed fallback. -/
theorem extractBot_of_no_qualifying (msgs : List ThreadMessage)
    (h : msgs.reverse.find? msgQualifies = none) :
    extractBot msgs = fallbackResponse := by
  unfold extractBot
  rw [h]

/-- The reply is non-empty whenever every text segment in the listing is. -/
theorem extractBot_ne_empty (msgs : List ThreadMessage)
    (h : ∀ m ∈ msgs, ∀ seg ∈ m.textMessages, seg.value ≠ "") :
    extractBot msgs ≠ "" := by
  unfold extractBot
  cases hf : msgs.reverse.find? msgQualifies with
  | none => decide
  | some m =>
    obtain ⟨hm, hq⟩ := findBot_mem msgs m hf
    have hne : m.textMessages ≠ [] := by
      intro hnil
      unfold msgQualifies at hq
      rw [hnil] at hq
      simp at hq
    cases hl : m.textMessages.getLast? with
    | none =>
      have hs := List.getLast?_isSome.mpr hne
      rw [hl] at hs
      exact absurd hs (by simp)
    | some seg =>
      have hmem : seg ∈ m.textMessages := by
        have hh := List.head?_reverse m.textMessages
        rw [← hh] at hl
        exact List.mem_reverse.mp (List.mem_of_mem_head? hl)
      show lastTextValue m.textMessages ≠ ""
      unfold lastTextValue
      rw [hl]
      exact h m hm seg hmem

/-- Evaluation of `chat_endpoint` on the happy path: client ready, valid
body, all four remote calls succeed and the run does not report `"failed"`. -/
theorem chat_endpoint_ok_eval (o : JObj) (reinit : Bool)
    (initError agentName tid s : String) (le : Option String)
    (msgs : List ThreadMessage)
    (hbody : bodyInvalid (some o) = false)
    (hs : (s == "failed") = false) :
    chat_endpoint true reinit initError (Except.ok (some o))
        ⟨Except.ok agentName, Except.ok tid, Except.ok (),
         Except.ok ⟨s, le⟩, Except.ok msgs⟩ =
      ⟨200, [("response", extractBot msgs), ("thread_id", tid),
             ("status", "success"),
             ("session_id", (jLookup o "session_id").getD "default")]⟩ := by
  unfold chat_endpoint chatTryBlock
  simp [hbody, hs]

/-- Evaluation of `chat_endpoint` when the run reports `"failed"`. -/
theorem chat_endpoint_failed_eval (o : JObj) (reinit : Bool)
    (initError agentName tid : String) (le : Option String)
    (msgs : List ThreadMessage)
    (hbody : bodyInvalid (some o) = false) :
    chat_endpoint true reinit initError (Except.ok (some o))
        ⟨Except.ok agentName, Except.ok tid, Except.ok (),
         Except.ok ⟨"failed", le⟩, Except.ok msgs⟩ =
      ⟨500, [("error", "El agente no pudo procesar la consulta"),
             ("details", failedDetails ⟨"failed", le⟩)]⟩ := by
  unfold chat_endpoint chatTryBlock
  simp [hbody]

/-- Claim C1 (amended): in `chat_endpoint` the completed path always answers
HTTP 200 with `response` set to the extracted reply; when the listing holds
no non-user message with a text segment, the fixed non-empty fallback string
is substituted rather than failing, and the reply is non-empty whenever the
listing's text segments all are.  (The `agent_client` variant does not share
this fallback: its completed-with-no-assistant path raises and surfaces as
`success == false` — the counterexample below.) -/
theorem c1_completed_path (o : JObj) (reinit : Bool)
    (initError agentName tid : String) (le : Option String)
    (msgs : List ThreadMessage)
    (hbody : bodyInvalid (some o) = false) :
    (chat_endpoint true reinit initError (Except.ok (some o))
        ⟨Except.ok agentName, Except.ok tid, Except.ok (),
         Except.ok ⟨"completed", le⟩, Except.ok msgs⟩).status = 200 ∧
    jLookup (chat_endpoint true reinit initError (Except.ok (some o))
        ⟨Except.ok agentName, Except.ok tid, Except.ok (),
         Except.ok ⟨"completed", le⟩, Except.ok msgs⟩).body "response"
      = some (extractBot msgs) ∧
    (msgs.reverse.find? msgQualifies = none →
      extractBot msgs = fallbackResponse) ∧
    fallbackResponse ≠ "" ∧
    ((∀ m ∈ msgs, ∀ seg ∈ m.textMessages, seg.value ≠ "") →
      extractBot msgs ≠ "") := by
  rw [chat_endpoint_ok_eval o reinit initError agentName tid "completed" le msgs
      hbody rfl]
  refine ⟨rfl, rfl, extractBot_of_no_qualifying msgs, by decide,
    extractBot_ne_empty msgs⟩

/-- Witness for C1: a concrete completed run with an empty listing answers
200, with the fallback as the reply. -/
theorem c1_completed_path_witness :
    (chat_endpoint true true "" (Except.ok (some [("message", "hola")]))
        ⟨Except.ok "agent", Except.ok "t1", Except.ok (),
         Except.ok ⟨"completed", none⟩, Except.ok []⟩).status = 200 ∧
    jLookup (chat_endpoint true true "" (Except.ok (some [("message", "hola")]))
        ⟨Except.ok "agent", Except.ok "t1", Except.ok (),
         Except.ok ⟨"completed", none⟩, Except.ok []⟩).body "response"
      = some (extractBot []) := by
  have h := c1_completed_path [("message", "hola")] true "" "agent" "t1" none []
    rfl
  exact ⟨h.1, h.2.1⟩

/-- Counterexample for C1 as frozen: in `ExistingAgentClient`, a run that is
already `"completed"` at the first poll over a thread with no assistant
message does *not* substitute a fallback string into a success envelope — the
`break` falls through to the timeout raise and `chat_with_agent` answers
`success == false`. -/
theorem c1_counterexample :
    ((chat_with_agent "hola" none (fun _ => "completed")
        [⟨"user", [⟨"hola"⟩]⟩] ⟨[], 0, 0⟩).1.success = false) ∧
    (chat_with_agent "hola" none (fun _ => "completed")
        [⟨"user", [⟨"hola"⟩]⟩] ⟨[], 0, 0⟩).1.content
      = "Error: Timeout esperando respuesta del agente" :=
  ⟨rfl, rfl⟩

/-- Claim C3 (amended): a run whose remote status is `"failed"` is always an
unsuccessful outcome — `chat_endpoint` answers 500 with `details` equal to
the remote's reported reason (the fixed default only when none was reported,
so the detail is non-empty whenever the reported reason is), the
`agent_client` variant maps the first failure-class status (failed, expired
or cancelled) observed within budget to `success == false` carrying the
status, and the Flask handler answers a bare 500 `Agent failed` (without the
remote reason).  Statuses `"expired"`/`"cancelled"` are *not* special-cased
by `chat_endpoint` and fall through to the success path — the
counterexample. -/
theorem c3_failed_run (o : JObj) (reinit : Bool)
    (initError agentName tid : String) (le : Option String)
    (msgs : List ThreadMessage)
    (hbody : bodyInvalid (some o) = false)
    (hle : ∀ r, le = some r → r ≠ "") :
    ((chat_endpoint true reinit initError (Except.ok (some o))
        ⟨Except.ok agentName, Except.ok tid, Except.ok (),
         Except.ok ⟨"failed", le⟩, Except.ok msgs⟩).status = 500 ∧
     jLookup (chat_endpoint true reinit initError (Except.ok (some o))
        ⟨Except.ok agentName, Except.ok tid, Except.ok (),
         Except.ok ⟨"failed", le⟩, Except.ok msgs⟩).body "details"
       = some (failedDetails ⟨"failed", le⟩) ∧
     failedDetails ⟨"failed", le⟩ ≠ "" ∧
     (∀ r, le = some r → failedDetails ⟨"failed", le⟩ = r)) ∧
    (∀ (status : Nat → String) (amsgs : List AgentMessage) (st : ClientState)
       (q : String) (tid2 : Option String) (k : Nat),
      k < max_wait_default →
      (∀ j, j < k → isTerminal (status j) = false) →
      isFailure (status k) = true →
      (chat_with_agent q tid2 status amsgs st).1.success = false ∧
      (chat_with_agent q tid2 status amsgs st).1.content =
        "Error: " ++ errText (WaitError.failedStatus (status k))) ∧
    (∀ (o2 : JObj) (a t : String) (le2 : Option String)
       (msgs2 : List ThreadMessage),
      flask_chat (some o2)
        ⟨Except.ok a, Except.ok t, Except.ok (),
         Except.ok ⟨"failed", le2⟩, Except.ok msgs2⟩
        = ⟨500, [("error", "Agent failed")]⟩) := by
  refine ⟨?_, ?_, ?_⟩
  · rw [chat_endpoint_failed_eval o reinit initError agentName tid le msgs hbody]
    refine ⟨rfl, rfl, ?_, ?_⟩
    · cases le with
      | none => decide
      | some r =>
        have := hle r rfl
        simpa [failedDetails] using this
    · intro r hr
      rw [hr]
      rfl
  · intro status amsgs st q tid2 k hk hmin hfail
    have hterm : isTerminal (status k) = true := by
      unfold isTerminal
      rw [hfail]
      simp
    have hfh : firstHitFrom status max_wait_default 0 = some k :=
      firstHitFrom_of_least status max_wait_default 0 k (Nat.zero_le k)
        (by unfold max_wait_default at hk ⊢; omega) hterm
        (fun j _ hjk => hmin j hjk)
    have hcne : (status k == "completed") = false := isFailure_ne_completed _ hfail
    have hwait : wait_for_response status amsgs max_wait_default =
        Except.error (WaitError.failedStatus (status k)) := by
      unfold wait_for_response
      rw [waitAux_of_someHit status amsgs max_wait_default 0 k hfh, hcne]
      simp
    unfold chat_with_agent
    rw [hwait]
    exact ⟨rfl, rfl⟩
  · intro o2 a t le2 msgs2
    unfold flask_chat flask_chat_try
    simp

/-- Witness for C3: a concrete failed run with a reported reason yields 500
with that reason in `details`. -/
theorem c3_failed_run_witness :
    (chat_endpoint true true "" (Except.ok (some [("message", "hola")]))
        ⟨Except.ok "agent", Except.ok "t1", Except.ok (),
         Except.ok ⟨"failed", some "rate limit exceeded"⟩,
         Except.ok []⟩).status = 500 ∧
    jLookup (chat_endpoint true true "" (Except.ok (some [("message", "hola")]))
        ⟨Except.ok "agent", Except.ok "t1", Except.ok (),
         Except.ok ⟨"failed", some "rate limit exceeded"⟩,
         Except.ok []⟩).body "details" = some "rate limit exceeded" := by
  have h := c3_failed_run [("message", "hola")] true "" "agent" "t1"
    (some "rate limit exceeded") [] rfl
    (by intro r hr; injection hr with h2; rw [← h2]; decide)
  exact ⟨h.1.1, h.1.2.1⟩

/-- Counterexample for C3 as frozen: a run whose terminal status is
`"cancelled"` is converted by `chat_endpoint` into an HTTP 200 response with
`status: success` — not an unsuccessful outcome. -/
theorem c3_counterexample :
    (chat_endpoint true true "" (Except.ok (some [("message", "hola")]))
        ⟨Except.ok "agent", Except.ok "t1", Except.ok (),
         Except.ok ⟨"cancelled", some "user cancelled"⟩,
         Except.ok [⟨"assistant", [⟨"hola"⟩]⟩]⟩).status = 200 ∧
    jLookup (chat_endpoint true true "" (Except.ok (some [("message", "hola")]))
        ⟨Except.ok "agent", Except.ok "t1", Except.ok (),
         Except.ok ⟨"cancelled", some "user cancelled"⟩,
         Except.ok [⟨"assistant", [⟨"hola"⟩]⟩]⟩).body "status"
      = some "success" :=
  ⟨rfl, rfl⟩

/-- Claim C9 (amended): a successful request is answered with HTTP 200 and
body `{"response": ..., "thread_id": ..., "status": "success",
"session_id": ...}` — the thread field is named `thread_id`, not `threadId`,
and a `session_id` field is included; the Flask variant instead returns only
`{"response": ...}`. -/
theorem c9_success_shape (o : JObj) (reinit : Bool)
    (initError agentName tid s : String) (le : Option String)
    (msgs : List ThreadMessage)
    (hbody : bodyInvalid (some o) = false)
    (hs : (s == "failed") = false) :
    chat_endpoint true reinit initError (Except.ok (some o))
        ⟨Except.ok agentName, Except.ok tid, Except.ok (),
         Except.ok ⟨s, le⟩, Except.ok msgs⟩ =
      ⟨200, [("response", extractBot msgs), ("thread_id", tid),
             ("status", "success"),
             ("session_id", (jLookup o "session_id").getD "default")]⟩ ∧
    (∀ (o2 : JObj) (a t : String) (le2 : Option String) (r : String)
       (segs : List TextSegment) (rest : List ThreadMessage)
       (seg : TextSegment),
      (s == "failed") = false →
      segs.getLast? = some seg →
      flask_chat (some o2)
        ⟨Except.ok a, Except.ok t, Except.ok (), Except.ok ⟨s, le2⟩,
         Except.ok (⟨r, segs⟩ :: rest)⟩
        = ⟨200, [("response", seg.value)]⟩) := by
  constructor
  · exact chat_endpoint_ok_eval o reinit initError agentName tid s le msgs
      hbody hs
  · intro o2 a t le2 r segs rest seg hs2 hlast
    unfold flask_chat flask_chat_try
    simp [hs2, hlast]

/-- Witness for C9: the concrete success body of `chat_endpoint`. -/
theorem c9_success_shape_witness :
    chat_endpoint true true "" (Except.ok (some [("message", "hello")]))
        ⟨Except.ok "agent", Except.ok "t1", Except.ok (),
         Except.ok ⟨"completed", none⟩,
         Except.ok [⟨"assistant", [⟨"hi there"⟩]⟩]⟩ =
      ⟨200, [("response", extractBot [⟨"assistant", [⟨"hi there"⟩]⟩]),
             ("thread_id", "t1"), ("status", "success"),
             ("session_id", "default")]⟩ :=
  (c9_success_shape [("message", "hello")] true "" "agent" "t1" "completed"
    none [⟨"assistant", [⟨"hi there"⟩]⟩] rfl rfl).1

/-- Counterexample for C9 as frozen: the success body has no `threadId`
field — the key is spelled `thread_id` (and a `session_id` field is
present). -/
theorem c9_counterexample :
    jLookup (chat_endpoint true true "" (Except.ok (some [("message", "hello")]))
        ⟨Except.ok "agent", Except.ok "t1", Except.ok (),
         Except.ok ⟨"completed", none⟩,
         Except.ok [⟨"assistant", [⟨"hi there"⟩]⟩]⟩).body "threadId" = none ∧
    jLookup (chat_endpoint true true "" (Except.ok (some [("message", "hello")]))
        ⟨Except.ok "agent", Except.ok "t1", Except.ok (),
         Except.ok ⟨"completed", none⟩,
         Except.ok [⟨"assistant", [⟨"hi there"⟩]⟩]⟩).body "thread_id"
      = some "t1" ∧
    (chat_endpoint true true "" (Except.ok (some [("message", "hello")]))
        ⟨Except.ok "agent", Except.ok "t1", Except.ok (),
         Except.ok ⟨"completed", none⟩,
         Except.ok [⟨"assistant", [⟨"hi there"⟩]⟩]⟩).status = 200 :=
  ⟨rfl, rfl, rfl⟩

/-- Claim C4 (amended): the reply extracted by `chat_endpoint` is the last
text segment of the most recent (last, in ascending creation order) non-user
message *that has at least one text segment* — non-user entries without text
segments are skipped, and with no qualifying entry the fallback is used.  In
the `agent_client` variant the reply is instead the *first* content segment
of the first assistant entry in the SDK listing order. -/
theorem c4_extraction_order (msgs : List ThreadMessage) :
    (extractBot msgs =
      (match lastNonUserWithText msgs with
       | some m => lastTextValue m.textMessages
       | none => fallbackResponse)) ∧
    (∀ m, lastNonUserWithText msgs = some m →
      m ∈ msgs ∧ (m.role != "user") = true ∧ m.textMessages ≠ []) ∧
    (∀ (status : Nat → String) (amsgs : List AgentMessage)
       (m : AgentMessage) (seg : TextSegment) (rest : List TextSegment)
       (fuel : Nat),
      status 0 = "completed" →
      amsgs.find? (fun x => x.role == "assistant") = some m →
      m.content = seg :: rest →
      wait_for_response status amsgs (fuel + 1) = Except.ok seg.value) := by
  refine ⟨?_, ?_, ?_⟩
  · unfold extractBot lastNonUserWithText
    rw [find?_eq_filter_head?, List.filter_reverse, List.head?_reverse]
  · intro m hm
    unfold lastNonUserWithText at hm
    have hmem : m ∈ msgs.filter msgQualifies := by
      have hh := List.head?_reverse (msgs.filter msgQualifies)
      rw [← hh] at hm
      exact List.mem_reverse.mp (List.mem_of_mem_head? hm)
    have hq : msgQualifies m = true := List.of_mem_filter hmem
    have hin : m ∈ msgs := List.mem_of_mem_filter hmem
    unfold msgQualifies at hq
    rw [Bool.and_eq_true] at hq
    obtain ⟨h1, h2⟩ := hq
    refine ⟨hin, h1, ?_⟩
    intro hnil
    rw [hnil] at h2
    simp at h2
  · intro status amsgs m seg rest fuel h0 hfind hcont
    unfold wait_for_response
    rw [show waitAux status amsgs (fuel + 1) 0 =
        (if status 0 == "completed" then completedExtract amsgs
         else if isFailure (status 0) then
           Except.error (WaitError.failedStatus (status 0))
         else waitAux status amsgs fuel (0 + 1)) from rfl]
    rw [h0]
    simp [completedExtract, hfind, hcont]

/-- Witness for C4: the characterisation applied to a concrete listing with
two assistant replies. -/
theorem c4_extraction_order_witness :
    extractBot [⟨"user", [⟨"q"⟩]⟩, ⟨"assistant", [⟨"r1"⟩, ⟨"r2"⟩]⟩] =
      (match lastNonUserWithText
          [⟨"user", [⟨"q"⟩]⟩, ⟨"assistant", [⟨"r1"⟩, ⟨"r2"⟩]⟩] with
       | some m => lastTextValue m.textMessages
       | none => fallbackResponse) :=
  (c4_extraction_order [⟨"user", [⟨"q"⟩]⟩, ⟨"assistant", [⟨"r1"⟩, ⟨"r2"⟩]⟩]).1

/-- Counterexample for C4 as frozen: when the last non-user entry has no text
segment, the extracted reply comes from an *earlier* message, so the reply is
not always a segment of the last non-user entry. -/
theorem c4_counterexample :
    extractBot [⟨"user", [⟨"hola"⟩]⟩, ⟨"assistant", [⟨"a"⟩]⟩,
        ⟨"assistant", []⟩] = "a" ∧
    (([⟨"user", [⟨"hola"⟩]⟩, ⟨"assistant", [⟨"a"⟩]⟩, ⟨"assistant", []⟩]
        : List ThreadMessage).filter (fun m => m.role != "user")).getLast?
      = some ⟨"assistant", []⟩ :=
  ⟨rfl, rfl⟩

/-- Claim C5 (amended): only a missing body, an empty body object or an
absent `message` key is rejected — that case answers 400
`Message is required` and performs zero remote calls, for every environment
and remote behaviour.  An empty or whitespace-only `message` *value* passes
the check and triggers the full remote call sequence (counterexample); the
Flask variant performs no validation at all. -/
theorem c5_validation (body : Option JObj) (env : MainEnv) (ops : MainOps)
    (h : bodyInvalid body = true) :
    api_chat_main body env ops =
      (⟨400, [("error", "Message is required")]⟩, 0) := by
  unfold api_chat_main
  simp [h]

/-- Witness for C5: a request with no body at all is rejected with zero
remote calls. -/
theorem c5_validation_witness :
    api_chat_main none ⟨some "https://endpoint", some "agent-1", none⟩
        ⟨true, Except.ok "t1", Except.ok (), Except.ok ⟨"completed", none⟩,
         Except.ok []⟩ =
      (⟨400, [("error", "Message is required")]⟩, 0) :=
  c5_validation none ⟨some "https://endpoint", some "agent-1", none⟩
    ⟨true, Except.ok "t1", Except.ok (), Except.ok ⟨"completed", none⟩,
     Except.ok []⟩ rfl

/-- Counterexample for C5 as frozen: a whitespace-only `message` value is
*not* rejected — the handler answers 200 after performing all four remote
calls, instead of a 4xx with zero calls. -/
theorem c5_counterexample :
    (api_chat_main (some [("message", "   ")])
        ⟨some "https://endpoint", some "agent-1", none⟩
        ⟨true, Except.ok "t1", Except.ok (), Except.ok ⟨"completed", none⟩,
         Except.ok [⟨"assistant", [⟨"hola"⟩]⟩]⟩).1.status = 200 ∧
    (api_chat_main (some [("message", "   ")])
        ⟨some "https://endpoint", some "agent-1", none⟩
        ⟨true, Except.ok "t1", Except.ok (), Except.ok ⟨"completed", none⟩,
         Except.ok [⟨"assistant", [⟨"hola"⟩]⟩]⟩).2 = 4 :=
  ⟨rfl, rfl⟩

/-- Claim C6 (amended): the fixed-priority ladder with independently caught
attempts — API key, then managed identity, then the ambient default chain,
failing only on exhaustion, so a failed API-key attempt with a later working
mechanism still resolves — is the behaviour of the *test* variant
(`function_app_identity_test.py`).  The deployed `azure_functions` variant
lacks it: a present-but-failing API key aborts resolution without trying
managed identity, and there is no ambient-default step (counterexample). -/
theorem c6_fallback_ladder (e : AuthEnv) :
    ((truthyKey e.apiKey && e.keyAuthOk) = true →
      init_client_test e = InitOutcome.okMethod "api_key") ∧
    ((truthyKey e.apiKey && e.keyAuthOk) = false →
      ((e.msiEndpoint || e.identityEndpoint) && e.msiAuthOk) = true →
      init_client_test e = InitOutcome.okMethod "managed_identity") ∧
    ((truthyKey e.apiKey && e.keyAuthOk) = false →
      ((e.msiEndpoint || e.identityEndpoint) && e.msiAuthOk) = false →
      e.defaultAuthOk = true →
      init_client_test e = InitOutcome.okMethod "default_credential") ∧
    ((∃ err, init_client_test e = InitOutcome.failed err) ↔
      ((truthyKey e.apiKey && e.keyAuthOk) = false ∧
       ((e.msiEndpoint || e.identityEndpoint) && e.msiAuthOk) = false ∧
       e.defaultAuthOk = false)) ∧
    (e.keyAuthOk = false →
      (((e.msiEndpoint || e.identityEndpoint) && e.msiAuthOk) = true ∨
        e.defaultAuthOk = true) →
      ∃ m, init_client_test e = InitOutcome.okMethod m) := by
  obtain ⟨k, msi, ide, kok, mok, dok⟩ := e
  cases hb0 : truthyKey k <;> cases kok <;> cases msi <;> cases ide <;>
    cases mok <;> cases dok <;> simp [init_client_test, hb0]

/-- Witness for C6: with a present-but-rejected API key and a working
identity endpoint, the test-variant resolver still succeeds via managed
identity. -/
theorem c6_fallback_ladder_witness :
    init_client_test ⟨some "bad-key", true, false, false, true, true⟩
      = InitOutcome.okMethod "managed_identity" :=
  (c6_fallback_ladder ⟨some "bad-key", true, false, false, true, true⟩).2.1
    rfl rfl

/-- Counterexample for C6 as frozen: with the very same configuration — API
key present but failing verification, managed identity available and working
— the deployed `initialize_client` of `azure_functions/function_app.py`
fails instead of falling through (its sibling test variant succeeds). -/
theorem c6_counterexample :
    init_client_af ⟨some "bad-key", true, false, false, true, true⟩
        = InitOutcome.failed "Cliente creado pero no puede acceder al agente" ∧
    init_client_test ⟨some "bad-key", true, false, false, true, true⟩
        = InitOutcome.okMethod "managed_identity" :=
  ⟨rfl, rfl⟩

/-- Claim C7 (amended): for every *non-empty* session key `k` not yet cached,
two consecutive requests with key `k` cost exactly one remote thread
creation — the first creates and caches, the second reuses the cached thread
— and the binding of `k` is preserved by every later request, while a second
request under a different non-empty uncached key, or under no key, costs a
second creation.  The empty-string key is falsy in the source's
`if thread_id and ...` / `if thread_id:` checks, so it is never cached and
repeating it creates a new thread each time (counterexample). -/
theorem c7_session_reuse (k : String) (st : ClientState)
    (hk : (k == "") = false) (hmiss : cacheFind st k = none) :
    ((getOrCreateThread (some k) st).2.createCalls = st.createCalls + 1) ∧
    ((getOrCreateThread (some k)
        (getOrCreateThread (some k) st).2).2.createCalls
      = st.createCalls + 1) ∧
    ((getOrCreateThread (some k) (getOrCreateThread (some k) st).2).1
      = (getOrCreateThread (some k) st).1) ∧
    (cacheFind (getOrCreateThread (some k) st).2 k
      = some (getOrCreateThread (some k) st).1) ∧
    (∀ (tid : Option String) (st2 : ClientState) (v : String),
      cacheFind st2 k = some v →
      cacheFind (getOrCreateThread tid st2).2 k = some v) ∧
    (∀ k2, (k2 == "") = false → (k2 == k) = false → cacheFind st k2 = none →
      (getOrCreateThread (some k2)
          (getOrCreateThread (some k) st).2).2.createCalls
        = st.createCalls + 2) ∧
    ((getOrCreateThread none
        (getOrCreateThread (some k) st).2).2.createCalls
      = st.createCalls + 2) := by
  have htr : truthyKey (some k) = true := by simp [truthyKey, hk]
  have h1 : getOrCreateThread (some k) st =
      (freshThreadId st.nextIdx,
       ⟨(k, freshThreadId st.nextIdx) :: st.threads, st.nextIdx + 1,
        st.createCalls + 1⟩) := by
    unfold getOrCreateThread
    rw [show (some k).getD "" = k from rfl, hmiss]
    simp [htr]
  have h2 : cacheFind ⟨(k, freshThreadId st.nextIdx) :: st.threads,
      st.nextIdx + 1, st.createCalls + 1⟩ k
      = some (freshThreadId st.nextIdx) := by
    unfold cacheFind
    rw [List.find?_cons_of_pos _ (by simp)]
    rfl
  have h3 : getOrCreateThread (some k)
      ⟨(k, freshThreadId st.nextIdx) :: st.threads, st.nextIdx + 1,
       st.createCalls + 1⟩ =
      (freshThreadId st.nextIdx,
       ⟨(k, freshThreadId st.nextIdx) :: st.threads, st.nextIdx + 1,
        st.createCalls + 1⟩) := by
    unfold getOrCreateThread
    rw [show (some k).getD "" = k from rfl, h2]
    simp [htr]
  have hpres : ∀ (tid : Option String) (st2 : ClientState) (v : String),
      cacheFind st2 k = some v →
      cacheFind (getOrCreateThread tid st2).2 k = some v := by
    intro tid st2 v hv
    unfold getOrCreateThread
    cases hcond : (truthyKey tid && (cacheFind st2 (tid.getD "")).isSome) with
    | true => simpa [hcond] using hv
    | false =>
      cases htid : truthyKey tid with
      | false => simpa [hcond, htid, cacheFind] using hv
      | true =>
        have hne : (tid.getD "" == k) = false := by
          cases hbeq : (tid.getD "" == k) with
          | false => rfl
          | true =>
            have he := eq_of_beq hbeq
            rw [htid, he, hv] at hcond
            simp at hcond
        simp only [hcond, htid, Bool.false_eq_true, if_false, if_true]
        show cacheFind ⟨(tid.getD "", freshThreadId st2.nextIdx) ::
            st2.threads, st2.nextIdx + 1, st2.createCalls + 1⟩ k = some v
        unfold cacheFind at hv ⊢
        rw [List.find?_cons_of_neg _ (by simp [hne])]
        exact hv
  refine ⟨?_, ?_, ?_, ?_, hpres, ?_, ?_⟩
  · rw [h1]
  · rw [h1, h3]
  · rw [h1, h3]
  · rw [h1]
    exact h2
  · intro k2 hk2 hk2k hm2
    rw [h1]
    have hne2 : (k == k2) = false := by
      cases hbeq : (k == k2) with
      | false => rfl
      | true =>
        have he := eq_of_beq hbeq
        rw [he] at hk2k
        simp at hk2k
    have hm2' : cacheFind ⟨(k, freshThreadId st.nextIdx) :: st.threads,
        st.nextIdx + 1, st.createCalls + 1⟩ k2 = none := by
      unfold cacheFind at hm2 ⊢
      rw [List.find?_cons_of_neg _ (by simp [hne2])]
      exact hm2
    unfold getOrCreateThread
    rw [show (some k2).getD "" = k2 from rfl, hm2']
    simp [truthyKey, hk2]
  · rw [h1]
    unfold getOrCreateThread
    simp [truthyKey]

/-- Witness for C7: from an empty cache, two requests with key `"s1"` cost
one creation; a following keyless request costs a second. -/
theorem c7_session_reuse_witness :
    ((getOrCreateThread (some "s1")
        (getOrCreateThread (some "s1") ⟨[], 0, 0⟩).2).2.createCalls = 1) ∧
    ((getOrCreateThread none
        (getOrCreateThread (some "s1") ⟨[], 0, 0⟩).2).2.createCalls = 2) := by
  have h := c7_session_reuse "s1" ⟨[], 0, 0⟩ rfl rfl
  exact ⟨h.2.1, h.2.2.2.2.2.2⟩

/-- Counterexample for C7 as frozen: the empty-string session key is treated
as absent, so two consecutive requests carrying the same key `""` cause two
remote thread creations, not one. -/
theorem c7_counterexample :
    ((getOrCreateThread (some "")
        (getOrCreateThread (some "") ⟨[], 0, 0⟩).2).2.createCalls = 2) :=
  rfl

/-- Every outcome of `chat_endpoint`'s `try` block is either a raised
exception, the 200 success shape, or an error body carrying an `error` field
with a non-200 status. -/
theorem chatTryBlock_shapes (getJson : Except String (Option JObj))
    (ops : AgentsApi) :
    (∃ e, chatTryBlock getJson ops = Except.error e) ∨
    (∃ r, chatTryBlock getJson ops = Except.ok r ∧
      (r.status = 200 ∨ (jHasKey r.body "error" = true ∧ r.status ≠ 200))) := by
  obtain ⟨ga, ct, cm, cap, lm⟩ := ops
  cases getJson with
  | error e => exact Or.inl ⟨e, rfl⟩
  | ok body =>
    cases hb : bodyInvalid body with
    | true =>
      refine Or.inr ⟨⟨400, [("error", "El mensaje es requerido")]⟩, ?_,
        Or.inr ⟨rfl, by decide⟩⟩
      simp [chatTryBlock, hb]
    | false =>
      cases ga with
      | error e => exact Or.inl ⟨e, by simp [chatTryBlock, hb]⟩
      | ok agentName =>
        cases ct with
        | error e => exact Or.inl ⟨e, by simp [chatTryBlock, hb]⟩
        | ok tid =>
          cases cm with
          | error e => exact Or.inl ⟨e, by simp [chatTryBlock, hb]⟩
          | ok u =>
            cases cap with
            | error e => exact Or.inl ⟨e, by simp [chatTryBlock, hb]⟩
            | ok run =>
              cases hs : (run.status == "failed") with
              | true =>
                refine Or.inr ⟨⟨500,
                  [("error", "El agente no pudo procesar la consulta"),
                   ("details", failedDetails run)]⟩, ?_,
                  Or.inr ⟨rfl, show (500 : Nat) ≠ 200 by decide⟩⟩
                simp [chatTryBlock, hb, hs]
              | false =>
                cases lm with
                | error e => exact Or.inl ⟨e, by simp [chatTryBlock, hb, hs]⟩
                | ok msgs =>
                  refine Or.inr ⟨⟨200,
                    [("response", extractBot msgs), ("thread_id", tid),
                     ("status", "success"),
                     ("session_id",
                      (jLookup (body.getD []) "session_id").getD "default")]⟩,
                    ?_, Or.inl rfl⟩
                  simp [chatTryBlock, hb, hs]

/-- Claim C8 (amended): the agent queue handler always sets an output
envelope — with `success == false` carrying the error whenever parsing or
the remote conversation failed — and `chat_endpoint` maps every error to an
error body (an `error` field, non-200 status), never escaping unhandled.
The search queue handler's `except` block, however, only logs: a parse
failure there produces *no* output envelope (counterexample). -/
theorem c8_error_boundary :
    (∀ (parse : Except String QueueMsgData) (status : Nat → String)
       (msgs : List AgentMessage) (st : ClientState),
      (process_agent_conversation_queue parse status msgs st).isSome = true) ∧
    (∀ (e : String) (status : Nat → String) (msgs : List AgentMessage)
       (st : ClientState),
      process_agent_conversation_queue (Except.error e) status msgs st
          = some (format_error_response e "unknown") ∧
      (format_error_response e "unknown").success = false) ∧
    (∀ (md : QueueMsgData) (status : Nat → String)
       (msgs : List AgentMessage) (st : ClientState) (werr : WaitError),
      wait_for_response status msgs max_wait_default = Except.error werr →
      ∃ env, process_agent_conversation_queue (Except.ok md) status msgs st
          = some env ∧ env.success = false) ∧
    (∀ (clientReady reinit : Bool) (initError : String)
       (getJson : Except String (Option JObj)) (ops : AgentsApi),
      (chat_endpoint clientReady reinit initError getJson ops).status = 200 ∨
      (jHasKey (chat_endpoint clientReady reinit initError getJson ops).body
          "error" = true ∧
        (chat_endpoint clientReady reinit initError getJson ops).status
          ≠ 200)) := by
  refine ⟨?_, ?_, ?_, ?_⟩
  · intro parse status msgs st
    cases parse <;> rfl
  · intro e status msgs st
    exact ⟨rfl, rfl⟩
  · intro md status msgs st werr hw
    refine ⟨format_agent_response
      ⟨"Error: " ++ errText werr, md.threadId, false⟩ md.correlationId,
      ?_, rfl⟩
    unfold process_agent_conversation_queue chat_with_agent
    rw [hw]
  · intro clientReady reinit initError getJson ops
    cases hg : (!clientReady && !reinit) with
    | true =>
      have hcl : chat_endpoint clientReady reinit initError getJson ops =
          ⟨503, [("error", "Servicio no disponible"),
                 ("details", "No se puede conectar con Azure AI"),
                 ("initialization_error", initError),
                 ("suggestion",
                  "Verifica la configuración de AZURE_AI_API_KEY")]⟩ := by
        unfold chat_endpoint
        rw [if_pos hg]
      rw [hcl]
      exact Or.inr ⟨rfl, show (503 : Nat) ≠ 200 by decide⟩
    | false =>
      rcases chatTryBlock_shapes getJson ops with ⟨e, he⟩ | ⟨r, hr, hprop⟩
      · have hcl : chat_endpoint clientReady reinit initError getJson ops =
            ⟨500, [("error", "Error interno del servidor"), ("details", e),
                   ("type", "Exception")]⟩ := by
          unfold chat_endpoint
          rw [if_neg (by simp [hg]), he]
        rw [hcl]
        exact Or.inr ⟨rfl, show (500 : Nat) ≠ 200 by decide⟩
      · have hcl : chat_endpoint clientReady reinit initError getJson ops
            = r := by
          unfold chat_endpoint
          rw [if_neg (by simp [hg]), hr]
        rw [hcl]
        exact hprop

/-- Witness for C8: a concrete malformed queue message still produces an
output envelope, with `Success == false`. -/
theorem c8_error_boundary_witness :
    process_agent_conversation_queue (Except.error "Expecting value")
        (fun _ => "queued") [] ⟨[], 0, 0⟩
      = some (format_error_response "Expecting value" "unknown") ∧
    (format_error_response "Expecting value" "unknown").success = false :=
  c8_error_boundary.2.1 "Expecting value" (fun _ => "queued") [] ⟨[], 0, 0⟩

/-- Counterexample for C8 as frozen: a parse failure in the search queue
handler ends with *no* output envelope at all — its `except` block only
logs. -/
theorem c8_counterexample :
    direct_search_query_queue (Except.error "Expecting value: line 1 column 1")
        (Except.ok []) = none :=
  rfl

/-- Claim C10 (confirmed): a raising search client makes
`DirectSearchService.search` return the empty list, and the formatter maps
the empty list to a `Success == true` envelope carrying the fixed no-results
text and zero results — including through the queue handler, a failed search
is reported as a successful empty response, never as an error envelope. -/
theorem c10_failed_search_reports_success (err cid : String)
    (md : QueueMsgData) :
    direct_search (Except.error err) = [] ∧
    (format_search_response (direct_search (Except.error err)) cid).success
        = true ∧
    (format_search_response (direct_search (Except.error err)) cid).value
        = noResultsText ∧
    (format_search_response (direct_search (Except.error err)) cid).resultCount
        = 0 ∧
    (format_search_response (direct_search (Except.error err)) cid).results
        = [] ∧
    direct_search_query_queue (Except.ok md) (Except.error err)
        = some (format_search_response [] md.correlationId) :=
  ⟨rfl, rfl, rfl, rfl, rfl, rfl⟩
